import Mathlib

/-!
Verification of the matlab-wrap lifetime/registry protocol of the gtsam
binding generator, embedded shallowly from the generated dispatcher
`src/wrap/tests/expected_namespaces/new_ClassD_.cpp`, the shipped interface
file `src/gtsam.h`, and the generic value interface
`src/gtsam/base/DerivedValue.h`.
-/

set_option autoImplicit false

namespace WrapLifetime

/-- A native pointer value; `0` models the null pointer (an empty first
input slot unwraps to a null `Shared*`). -/
abbrev Ptr := Nat

/-- `std::set` insertion: no-op when the element is already present,
otherwise the element is added. -/
def setInsert (l : List Ptr) (a : Ptr) : List Ptr :=
  if a ∈ l then l else a :: l

/-- `std::set` erasure: removes the element when present (at most one copy
exists in a set), otherwise leaves the set unchanged. -/
def setErase (l : List Ptr) (a : Ptr) : List Ptr :=
  match l with
  | [] => []
  | x :: xs => if x = a then xs else x :: setErase xs a

/-- The mutable state touched by the generated dispatcher: the per-class
registry `static std::set<Shared*> collector`, the set of currently
allocated `Shared` blocks (the native instances), and the allocator's next
fresh address (nonzero addresses only). -/
structure MexState where
  collector : List Ptr
  live : List Ptr
  nextPtr : Ptr
  deriving Repr, DecidableEq

/-- One invocation's inputs: the pointer stored in the first input slot
(`*(Shared**) mxGetData(in[0])`, `0` when the slot is empty), the input
count `nargin`, and the constructor selector `unwrap<int>(in[1])` (read
only on the construction path). -/
structure MexInput where
  self : Ptr
  nargin : Nat
  ctorId : Int
  deriving Repr, DecidableEq

/-- Dispatch-error taxonomy of the lifetime protocol. The generated
`new_ClassD_` dispatcher contains no error call, so no run of the embedded
`mexFunction` ever produces one; the type records what a fatal dispatch
error would be. -/
inductive DispatchError
  | unknownHandle
  | unknownSelector
  | marshalError
  deriving Repr, DecidableEq

/-- The observable outcome of one dispatcher invocation: the state after
the call, the handle written to `out[0]` (if any), and the pointer passed
to `delete` (if any). -/
structure MexResult where
  state : MexState
  out0 : Option Ptr
  destroyed : Option Ptr
  deriving Repr, DecidableEq

/-- Shallow embedding of `mexFunction` of `new_ClassD_.cpp`:

* `self ≠ 0` and `nargin > 1`: `collector.insert(self)`;
* `self ≠ 0` and `nargin ≤ 1`: `if(collector.erase(self)) delete self;`;
* `self = 0`: `nc = unwrap<int>(in[1])`; when `nc == 0` a fresh
  `Shared*` is heap-allocated over a new `ClassD`; in either case the
  (possibly still null) `self` is inserted into the collector and written
  to `out[0]`. No branch raises an error. -/
def mexFunction (s : MexState) (inp : MexInput) : Except DispatchError MexResult :=
  if inp.self ≠ 0 then
    if inp.nargin > 1 then
      .ok ⟨{ s with collector := setInsert s.collector inp.self }, none, none⟩
    else if inp.self ∈ s.collector then
      .ok ⟨⟨setErase s.collector inp.self, setErase s.live inp.self, s.nextPtr⟩,
           none, some inp.self⟩
    else
      .ok ⟨s, none, none⟩
  else
    if inp.ctorId = 0 then
      .ok ⟨⟨setInsert s.collector s.nextPtr, s.nextPtr :: s.live, s.nextPtr + 1⟩,
           some s.nextPtr, none⟩
    else
      .ok ⟨{ s with collector := setInsert s.collector 0 }, some 0, none⟩

/-- The registry/heap state after one invocation (the dispatcher never
errors, but the match keeps the definition total over `Except`). -/
def nextState (s : MexState) (inp : MexInput) : MexState :=
  match mexFunction s inp with
  | .ok r => r.state
  | .error _ => s

/-- `Destruct::operator()(Shared* p)` of the generated file: it only
erases `p` from the collector — it does not `delete p`. -/
def Destruct (c : List Ptr) (p : Ptr) : List Ptr :=
  setErase c p

/-- `cleanup` (the `mexAtExit` teardown hook):
`std::for_each(collector.begin(), collector.end(), Destruct())`, i.e.
applying `Destruct` to every element the collector held when the sweep
started. Only `collector` is touched; `live` is not. -/
def cleanup (s : MexState) : MexState :=
  { s with collector := s.collector.foldl Destruct s.collector }

/-- Allocator well-formedness: every pointer ever handed out is below
`nextPtr`, and `nextPtr` is a valid (nonzero) address. -/
def WF (s : MexState) : Prop :=
  0 < s.nextPtr ∧ (∀ p ∈ s.collector, p < s.nextPtr) ∧ ∀ p ∈ s.live, p < s.nextPtr

instance (s : MexState) : Decidable (WF s) :=
  inferInstanceAs (Decidable (_ ∧ _ ∧ _))

/-- A release request naming handle `h`: non-empty first slot carrying
`h`, and no second input. -/
def isReleaseOf (inp : MexInput) (h : Ptr) : Prop :=
  inp.self = h ∧ inp.self ≠ 0 ∧ inp.nargin ≤ 1

instance (inp : MexInput) (h : Ptr) : Decidable (isReleaseOf inp h) :=
  inferInstanceAs (Decidable (_ ∧ _ ∧ _))

theorem mem_setInsert {l : List Ptr} {a b : Ptr} :
    b ∈ setInsert l a ↔ b = a ∨ b ∈ l := by
  unfold setInsert
  split
  · rename_i hmem
    constructor
    · exact fun h => Or.inr h
    · rintro (rfl | h)
      · exact hmem
      · exact h
  · simp [List.mem_cons]

theorem setInsert_of_mem {l : List Ptr} {a : Ptr} (h : a ∈ l) :
    setInsert l a = l := by
  unfold setInsert
  simp [h]

theorem nodup_setInsert {l : List Ptr} {a : Ptr} (h : l.Nodup) :
    (setInsert l a).Nodup := by
  unfold setInsert
  split
  · exact h
  · rename_i hna
    exact List.nodup_cons.mpr ⟨hna, h⟩

theorem mem_setErase_of_ne {l : List Ptr} {a b : Ptr} (hne : b ≠ a) :
    b ∈ setErase l a ↔ b ∈ l := by
  induction l with
  | nil => simp [setErase]
  | cons x xs ih =>
    unfold setErase
    split
    · rename_i hxa
      subst hxa
      simp [List.mem_cons, hne]
    · simp [List.mem_cons, ih]

theorem not_mem_setErase_self {l : List Ptr} {a : Ptr} (h : l.Nodup) :
    a ∉ setErase l a := by
  induction l with
  | nil => simp [setErase]
  | cons x xs ih =>
    have hx : x ∉ xs := (List.nodup_cons.mp h).1
    have hxs : xs.Nodup := (List.nodup_cons.mp h).2
    unfold setErase
    split
    · rename_i hxa
      subst hxa
      exact hx
    · rename_i hxa
      intro hmem
      rcases List.mem_cons.mp hmem with hax | hax
      · exact hxa hax.symm
      · exact ih hxs hax

theorem nodup_setErase {l : List Ptr} {a : Ptr} (h : l.Nodup) :
    (setErase l a).Nodup := by
  induction l with
  | nil => simp [setErase]
  | cons x xs ih =>
    have hx : x ∉ xs := (List.nodup_cons.mp h).1
    have hxs : xs.Nodup := (List.nodup_cons.mp h).2
    unfold setErase
    split
    · exact hxs
    · rename_i hxa
      refine List.nodup_cons.mpr ⟨?_, ih hxs⟩
      intro hmem
      exact hx ((mem_setErase_of_ne hxa).mp hmem)

theorem foldl_Destruct_self (c : List Ptr) : c.foldl Destruct c = [] := by
  induction c with
  | nil => rfl
  | cons a t ih =>
    show List.foldl Destruct (Destruct (a :: t) a) t = []
    have h1 : Destruct (a :: t) a = t := by
      unfold Destruct setErase
      simp
    rw [h1]
    exact ih

/-- `true` exactly when the invocation produced a fatal dispatch error. -/
def raisesError (r : Except DispatchError MexResult) : Bool :=
  match r with
  | .error _ => true
  | .ok _ => false

/-- Claim C1: a release request (non-empty first slot carrying `h`, no
second input) removes `h` from the registry and destroys its instance iff
`h` is currently a member; otherwise it is a silent no-op leaving registry
and instances unchanged, and a second release of the same handle performs
no destruction. -/
theorem C1_release_iff_member (s : MexState) (h : Ptr) (n : Nat) (k : Int)
    (hh : h ≠ 0) (hn : n ≤ 1) (hnd : s.collector.Nodup) :
    (h ∈ s.collector →
       mexFunction s ⟨h, n, k⟩ =
         .ok ⟨⟨setErase s.collector h, setErase s.live h, s.nextPtr⟩, none, some h⟩ ∧
       h ∉ setErase s.collector h ∧
       mexFunction ⟨setErase s.collector h, setErase s.live h, s.nextPtr⟩ ⟨h, n, k⟩ =
         .ok ⟨⟨setErase s.collector h, setErase s.live h, s.nextPtr⟩, none, none⟩) ∧
    (h ∉ s.collector → mexFunction s ⟨h, n, k⟩ = .ok ⟨s, none, none⟩) := by
  have hn' : ¬ (1 : Nat) < n := by omega
  constructor
  · intro hmem
    have hout : h ∉ setErase s.collector h := not_mem_setErase_self hnd
    refine ⟨?_, hout, ?_⟩
    · simp [mexFunction, hh, hn', hmem]
    · simp [mexFunction, hh, hn', hout]
  · intro hmem
    simp [mexFunction, hh, hn', hmem]

theorem C1_release_iff_member_witness :
    mexFunction ⟨[1], [1], 2⟩ ⟨1, 1, 0⟩ =
      .ok ⟨⟨setErase [1] 1, setErase [1] 1, 2⟩, none, some 1⟩ ∧
    (1 : Ptr) ∉ setErase [1] 1 ∧
    mexFunction ⟨setErase [1] 1, setErase [1] 1, 2⟩ ⟨1, 1, 0⟩ =
      .ok ⟨⟨setErase [1] 1, setErase [1] 1, 2⟩, none, none⟩ :=
  (C1_release_iff_member ⟨[1], [1], 2⟩ 1 1 0 (by decide) (by decide) (by decide)).1
    (by decide)

/-- Claim C2 (divergence witness): on a state with one registered handle,
the teardown hook empties the collector but frees nothing — the instance
stays allocated, contradicting "its allocation freed". -/
theorem C2_cleanup_never_frees :
    (cleanup ⟨[1], [1], 2⟩).collector = [] ∧ (cleanup ⟨[1], [1], 2⟩).live = [1] :=
  ⟨rfl, rfl⟩

/-- Claim C3: after the global teardown sweep, the class registry is empty
— every handle, persistent ones included, is gone from the collector. -/
theorem C3_teardown_empties_registry (s : MexState) : (cleanup s).collector = [] :=
  foldl_Destruct_self s.collector

/-- Claim C4, counterexample: an empty-first-slot call whose constructor
selector (`1`) matches no declared constructor of `ClassD` does not raise
a dispatch error — it registers the null handle and writes it to the first
output slot. -/
theorem C4_no_error_counterexample :
    mexFunction ⟨[], [], 1⟩ ⟨0, 2, 1⟩ = .ok ⟨⟨[0], [], 1⟩, some 0, none⟩ ∧
    raisesError (mexFunction ⟨[], [], 1⟩ ⟨0, 2, 1⟩) = false ∧
    (0 : Ptr) ∈ (nextState ⟨[], [], 1⟩ ⟨0, 2, 1⟩).collector :=
  ⟨rfl, rfl, by decide⟩

/-- Claim C4 as amended: an empty-first-slot call whose constructor
selector matches no declared constructor raises no error; the dispatcher
performs no construction and no destruction, inserts the null handle into
the registry, and writes the null handle to the first output slot. -/
theorem C4_unknown_selector_amended (s : MexState) (n : Nat) (k : Int) (hk : k ≠ 0) :
    mexFunction s ⟨0, n, k⟩ =
      .ok ⟨{ s with collector := setInsert s.collector 0 }, some 0, none⟩ := by
  simp [mexFunction, hk]

theorem C4_unknown_selector_amended_witness :
    mexFunction ⟨[], [], 1⟩ ⟨0, 3, 7⟩ =
      .ok ⟨⟨setInsert [] 0, [], 1⟩, some 0, none⟩ :=
  C4_unknown_selector_amended ⟨[], [], 1⟩ 3 7 (by decide)

/-- Claim C5: an empty-first-slot call whose selector matches the nullary
constructor (`0`) heap-allocates a fresh instance, inserts its (nonzero,
previously unissued) handle into the class registry, and writes that
handle to the first output slot. -/
theorem C5_construct_registers_and_returns (s : MexState) (n : Nat) (hwf : WF s) :
    mexFunction s ⟨0, n, 0⟩ =
      .ok ⟨⟨setInsert s.collector s.nextPtr, s.nextPtr :: s.live, s.nextPtr + 1⟩,
           some s.nextPtr, none⟩ ∧
    s.nextPtr ≠ 0 ∧ s.nextPtr ∉ s.collector ∧ s.nextPtr ∉ s.live ∧
    s.nextPtr ∈ setInsert s.collector s.nextPtr := by
  obtain ⟨h0, hc, hl⟩ := hwf
  refine ⟨?_, ?_, ?_, ?_, ?_⟩
  · simp [mexFunction]
  · exact Nat.pos_iff_ne_zero.mp h0
  · intro hmem
    exact absurd (hc _ hmem) (lt_irrefl _)
  · intro hmem
    exact absurd (hl _ hmem) (lt_irrefl _)
  · exact mem_setInsert.mpr (Or.inl rfl)

theorem C5_construct_registers_and_returns_witness :
    mexFunction ⟨[], [], 1⟩ ⟨0, 2, 0⟩ =
      .ok ⟨⟨setInsert [] 1, [1], 2⟩, some 1, none⟩ ∧
    (1 : Ptr) ≠ 0 ∧ (1 : Ptr) ∉ ([] : List Ptr) ∧ (1 : Ptr) ∉ ([] : List Ptr) ∧
    (1 : Ptr) ∈ setInsert [] 1 :=
  C5_construct_registers_and_returns ⟨[], [], 1⟩ 2 (by decide)

/-- Claim C6: a call with a non-empty first slot and a second input is a
persistent-registration request: the handle is inserted into the registry
and nothing else happens — no allocation, no destruction, no output. -/
theorem C6_persistent_registration_frame (s : MexState) (h : Ptr) (n : Nat) (k : Int)
    (hh : h ≠ 0) (hn : 1 < n) :
    mexFunction s ⟨h, n, k⟩ =
      .ok ⟨{ s with collector := setInsert s.collector h }, none, none⟩ ∧
    h ∈ (nextState s ⟨h, n, k⟩).collector ∧
    (nextState s ⟨h, n, k⟩).live = s.live ∧
    (nextState s ⟨h, n, k⟩).nextPtr = s.nextPtr := by
  have h1 : mexFunction s ⟨h, n, k⟩ =
      .ok ⟨{ s with collector := setInsert s.collector h }, none, none⟩ := by
    simp [mexFunction, hh, hn]
  refine ⟨h1, ?_, ?_, ?_⟩
  · simp [nextState, h1]
    exact mem_setInsert.mpr (Or.inl rfl)
  · simp [nextState, h1]
  · simp [nextState, h1]

theorem C6_persistent_registration_frame_witness :
    mexFunction ⟨[], [9], 10⟩ ⟨7, 2, 0⟩ =
      .ok ⟨⟨setInsert [] 7, [9], 10⟩, none, none⟩ ∧
    (7 : Ptr) ∈ (nextState ⟨[], [9], 10⟩ ⟨7, 2, 0⟩).collector ∧
    (nextState ⟨[], [9], 10⟩ ⟨7, 2, 0⟩).live = [9] ∧
    (nextState ⟨[], [9], 10⟩ ⟨7, 2, 0⟩).nextPtr = 10 :=
  C6_persistent_registration_frame ⟨[], [9], 10⟩ 7 2 0 (by decide) (by decide)

/-- Claim C7: a handle present in the registry survives every dispatcher
invocation that is not a release request naming it — construction,
persistent registration, and the release of other handles never remove
it. -/
theorem C7_removal_only_by_release (s : MexState) (inp : MexInput) (h : Ptr)
    (hmem : h ∈ s.collector) (hrel : ¬ isReleaseOf inp h) :
    h ∈ (nextState s inp).collector := by
  by_cases hs : inp.self = 0
  · by_cases hk : inp.ctorId = 0
    · simp [nextState, mexFunction, hs, hk, mem_setInsert, hmem]
    · simp [nextState, mexFunction, hs, hk, mem_setInsert, hmem]
  · by_cases hn : 1 < inp.nargin
    · simp [nextState, mexFunction, hs, hn, mem_setInsert, hmem]
    · by_cases hsm : inp.self ∈ s.collector
      · have hne : h ≠ inp.self := by
          intro he
          exact hrel ⟨he.symm, hs, by omega⟩
        simp [nextState, mexFunction, hs, hn, hsm]
        exact (mem_setErase_of_ne hne).mpr hmem
      · simp [nextState, mexFunction, hs, hn, hsm, hmem]

theorem C7_removal_only_by_release_witness :
    (5 : Ptr) ∈ (nextState ⟨[5], [5], 6⟩ ⟨5, 2, 0⟩).collector :=
  C7_removal_only_by_release ⟨[5], [5], 6⟩ ⟨5, 2, 0⟩ 5 (by decide) (by decide)

/-- Claim C9: the registry has set semantics — every invocation preserves
duplicate-freeness, and a persistent-registration request for a handle
already registered leaves the whole state (registry included) unchanged. -/
theorem C9_registry_set_semantics (s : MexState) (inp : MexInput) (h : Ptr)
    (n : Nat) (k : Int) (hnd : s.collector.Nodup) :
    (nextState s inp).collector.Nodup ∧
    (h ≠ 0 → 1 < n → h ∈ s.collector →
      mexFunction s ⟨h, n, k⟩ = .ok ⟨s, none, none⟩) := by
  constructor
  · by_cases hs : inp.self = 0
    · by_cases hk : inp.ctorId = 0
      · simp [nextState, mexFunction, hs, hk]
        exact nodup_setInsert hnd
      · simp [nextState, mexFunction, hs, hk]
        exact nodup_setInsert hnd
    · by_cases hn : 1 < inp.nargin
      · simp [nextState, mexFunction, hs, hn]
        exact nodup_setInsert hnd
      · by_cases hsm : inp.self ∈ s.collector
        · simp [nextState, mexFunction, hs, hn, hsm]
          exact nodup_setErase hnd
        · simpa [nextState, mexFunction, hs, hn, hsm] using hnd
  · intro hh hn hmem
    have hins : setInsert s.collector h = s.collector := setInsert_of_mem hmem
    simp [mexFunction, hh, hn, hins]

theorem C9_registry_set_semantics_witness :
    (nextState ⟨[3], [3], 4⟩ ⟨3, 2, 0⟩).collector.Nodup ∧
    mexFunction ⟨[3], [3], 4⟩ ⟨3, 2, 0⟩ = .ok ⟨⟨[3], [3], 4⟩, none, none⟩ :=
  ⟨(C9_registry_set_semantics ⟨[3], [3], 4⟩ ⟨3, 2, 0⟩ 3 2 0 (by decide)).1,
   (C9_registry_set_semantics ⟨[3], [3], 4⟩ ⟨3, 2, 0⟩ 3 2 0 (by decide)).2
     (by decide) (by decide) (by decide)⟩

end WrapLifetime

namespace GenericValue

/-!
Embedding of `gtsam::DerivedValue<DERIVED>` (`src/gtsam/base/DerivedValue.h`):
the generic `Value` interface forwards `equals_`, `retract_` and
`localCoordinates_` to the derived class's own operations after a
`dynamic_cast` of the argument.  A closed world of two derived types `D`
and `E` models dynamic typing; the derived class's own `equals`,
`retract` and `localCoordinates` are opaque parameters bundled in
`DerivedOps`.
-/

/-- A value of the polymorphic `Value` hierarchy: its dynamic type is
either `D` (the derived type of interest) or some other derived type
`E`. -/
inductive GValue (D E : Type) where
  | ofD : D → GValue D E
  | ofE : E → GValue D E
  deriving DecidableEq

/-- `dynamic_cast<const DERIVED&>`: succeeds exactly when the dynamic type
of the argument is `D`; `none` models the thrown `std::bad_cast`. -/
def dynCastD {D E : Type} : GValue D E → Option D
  | .ofD d => some d
  | .ofE _ => none

/-- The derived class's own operations, over an abstract tangent-vector
type `Vec` and an abstract scalar type `R` (the tolerance). -/
structure DerivedOps (D Vec R : Type) where
  equals : D → D → R → Bool
  retract : D → Vec → D
  localCoordinates : D → D → Vec

/-- `DerivedValue::equals_`: cast the argument to `DERIVED` and return the
result of the derived class's `equals`. -/
def equals_ {D E Vec R : Type} (ops : DerivedOps D Vec R) (self : D)
    (p : GValue D E) (tol : R) : Option Bool :=
  (dynCastD p).map fun d2 => ops.equals self d2 tol

/-- `DerivedValue::retract_`: call the derived class's `retract`, then
return a freshly allocated copy of the result through the `Value`
interface. -/
def retract_ {D E Vec R : Type} (ops : DerivedOps D Vec R) (self : D)
    (delta : Vec) : GValue D E :=
  .ofD (ops.retract self delta)

/-- `DerivedValue::localCoordinates_`: cast the argument to `DERIVED` and
return the result of the derived class's `localCoordinates`. -/
def localCoordinates_ {D E Vec R : Type} (ops : DerivedOps D Vec R) (self : D)
    (v2 : GValue D E) : Option Vec :=
  (dynCastD v2).map fun d2 => ops.localCoordinates self d2

/-- Claim C10: when the argument's dynamic type is `D`, the generic
`Value`-interface operations coincide with the derived class's own:
`equals_` yields exactly `D`'s `equals`, `localCoordinates_` yields
exactly `D`'s `localCoordinates`, and `retract_` produces a `Value`
holding a copy of `D`'s `retract` result. -/
theorem C10_derived_value_refines (D E Vec R : Type) (ops : DerivedOps D Vec R)
    (self w : D) (tol : R) (delta : Vec) :
    equals_ (E := E) ops self (.ofD w) tol = some (ops.equals self w tol) ∧
    localCoordinates_ (E := E) ops self (.ofD w) = some (ops.localCoordinates self w) ∧
    retract_ (E := E) ops self delta = .ofD (ops.retract self delta) :=
  ⟨rfl, rfl, rfl⟩

end GenericValue

namespace InterfaceCatalog

/-!
Transcription of the shipped interface file `src/gtsam.h`: for the
duplicate-method check only the method names (static and non-static alike)
matter, so each class is recorded as its name together with the ordered
list of its declared method names.  Constructors and the commented-out
trailing classes are not method declarations and are omitted.
-/

/-- One method declaration of the interface file. -/
structure MethodDecl where
  name : String
  isStatic : Bool
  deriving Repr, DecidableEq

/-- One class declaration of the interface file (constructors carry no
name conflicts and are not recorded). -/
structure ClassDecl where
  name : String
  methods : List MethodDecl
  deriving Repr, DecidableEq

/-- `true` iff the list contains a name twice. -/
def hasDupNames : List String → Bool
  | [] => false
  | x :: xs => xs.contains x || hasDupNames xs

/-- Modelled from the spec: the validator's per-class duplicate-method
check ("rejects duplicate method names per class"; "a class with two
same-named methods fails with DuplicateMethod").  The wrap parser/checker
sources are not in the repository snapshot; this returns the names of the
classes on which validation raises `DuplicateMethod`. -/
def duplicateMethodClasses (cs : List ClassDecl) : List String :=
  (cs.filter fun c => hasDupNames (c.methods.map MethodDecl.name)).map ClassDecl.name

def point2Decl : ClassDecl :=
  ⟨"Point2",
   [⟨"Expmap", true⟩, ⟨"Logmap", true⟩, ⟨"print", false⟩, ⟨"x", false⟩,
    ⟨"y", false⟩, ⟨"localCoordinates", false⟩, ⟨"compose", false⟩,
    ⟨"between", false⟩, ⟨"retract", false⟩]⟩

def point3Decl : ClassDecl :=
  ⟨"Point3",
   [⟨"Expmap", true⟩, ⟨"Logmap", true⟩, ⟨"print", false⟩, ⟨"equals", false⟩,
    ⟨"vector", false⟩, ⟨"x", false⟩, ⟨"y", false⟩, ⟨"z", false⟩,
    ⟨"localCoordinates", false⟩, ⟨"retract", false⟩, ⟨"compose", false⟩,
    ⟨"between", false⟩]⟩

def rot2Decl : ClassDecl :=
  ⟨"Rot2",
   [⟨"Expmap", true⟩, ⟨"Logmap", true⟩, ⟨"fromAngle", true⟩,
    ⟨"fromDegrees", true⟩, ⟨"fromCosSin", true⟩, ⟨"relativeBearing", true⟩,
    ⟨"atan2", true⟩, ⟨"print", false⟩, ⟨"equals", false⟩, ⟨"theta", false⟩,
    ⟨"degrees", false⟩, ⟨"c", false⟩, ⟨"s", false⟩,
    ⟨"localCoordinates", false⟩, ⟨"retract", false⟩, ⟨"compose", false⟩,
    ⟨"between", false⟩]⟩

def rot3Decl : ClassDecl :=
  ⟨"Rot3",
   [⟨"Expmap", true⟩, ⟨"Logmap", true⟩, ⟨"ypr", true⟩, ⟨"Rx", true⟩,
    ⟨"Ry", true⟩, ⟨"Rz", true⟩, ⟨"RzRyRx", true⟩, ⟨"RzRyRx", true⟩,
    ⟨"yaw", true⟩, ⟨"pitch", true⟩, ⟨"roll", true⟩, ⟨"quaternion", true⟩,
    ⟨"rodriguez", true⟩, ⟨"matrix", false⟩, ⟨"transpose", false⟩,
    ⟨"xyz", false⟩, ⟨"ypr", false⟩, ⟨"roll", false⟩, ⟨"pitch", false⟩,
    ⟨"yaw", false⟩, ⟨"print", false⟩, ⟨"equals", false⟩,
    ⟨"localCoordinates", false⟩, ⟨"retract", false⟩, ⟨"compose", false⟩,
    ⟨"between", false⟩]⟩

def pose2Decl : ClassDecl :=
  ⟨"Pose2",
   [⟨"Expmap", true⟩, ⟨"Logmap", true⟩, ⟨"print", false⟩, ⟨"equals", false⟩,
    ⟨"x", false⟩, ⟨"y", false⟩, ⟨"theta", false⟩, ⟨"dim", false⟩,
    ⟨"localCoordinates", false⟩, ⟨"retract", false⟩, ⟨"compose", false⟩,
    ⟨"between", false⟩, ⟨"bearing", false⟩, ⟨"range", false⟩]⟩

def pose3Decl : ClassDecl :=
  ⟨"Pose3",
   [⟨"Expmap", true⟩, ⟨"Logmap", true⟩, ⟨"print", false⟩, ⟨"equals", false⟩,
    ⟨"x", false⟩, ⟨"y", false⟩, ⟨"z", false⟩, ⟨"matrix", false⟩,
    ⟨"adjointMap", false⟩, ⟨"compose", false⟩, ⟨"between", false⟩,
    ⟨"retract", false⟩, ⟨"translation", false⟩, ⟨"rotation", false⟩]⟩

def sharedGaussianDecl : ClassDecl :=
  ⟨"SharedGaussian", [⟨"print", false⟩]⟩

def sharedDiagonalDecl : ClassDecl :=
  ⟨"SharedDiagonal", [⟨"print", false⟩, ⟨"sample", false⟩]⟩

def sharedNoiseModelDecl : ClassDecl :=
  ⟨"SharedNoiseModel", []⟩

def vectorValuesDecl : ClassDecl :=
  ⟨"VectorValues",
   [⟨"print", false⟩, ⟨"equals", false⟩, ⟨"size", false⟩, ⟨"insert", false⟩]⟩

def gaussianConditionalDecl : ClassDecl :=
  ⟨"GaussianConditional", [⟨"print", false⟩, ⟨"equals", false⟩]⟩

def gaussianBayesNetDecl : ClassDecl :=
  ⟨"GaussianBayesNet",
   [⟨"print", false⟩, ⟨"equals", false⟩, ⟨"push_back", false⟩,
    ⟨"push_front", false⟩]⟩

def gaussianFactorDecl : ClassDecl :=
  ⟨"GaussianFactor", [⟨"print", false⟩, ⟨"equals", false⟩, ⟨"error", false⟩]⟩

def jacobianFactorDecl : ClassDecl :=
  ⟨"JacobianFactor",
   [⟨"print", false⟩, ⟨"equals", false⟩, ⟨"empty", false⟩, ⟨"getb", false⟩,
    ⟨"error", false⟩, ⟨"eliminateFirst", false⟩]⟩

def gaussianFactorGraphDecl : ClassDecl :=
  ⟨"GaussianFactorGraph",
   [⟨"print", false⟩, ⟨"equals", false⟩, ⟨"size", false⟩,
    ⟨"push_back", false⟩, ⟨"error", false⟩, ⟨"probPrime", false⟩,
    ⟨"combine", false⟩, ⟨"denseJacobian", false⟩, ⟨"denseHessian", false⟩,
    ⟨"sparseJacobian_", false⟩]⟩

def gaussianSequentialSolverDecl : ClassDecl :=
  ⟨"GaussianSequentialSolver",
   [⟨"eliminate", false⟩, ⟨"optimize", false⟩, ⟨"marginalFactor", false⟩,
    ⟨"marginalCovariance", false⟩]⟩

def kalmanFilterDecl : ClassDecl :=
  ⟨"KalmanFilter",
   [⟨"print", false⟩, ⟨"mean", false⟩, ⟨"information", false⟩,
    ⟨"covariance", false⟩, ⟨"predict", false⟩, ⟨"predict2", false⟩,
    ⟨"update", false⟩]⟩

def orderingDecl : ClassDecl :=
  ⟨"Ordering", [⟨"print", false⟩, ⟨"equals", false⟩, ⟨"push_back", false⟩]⟩

def planarSLAMValuesDecl : ClassDecl :=
  ⟨"planarSLAM::Values",
   [⟨"print", false⟩, ⟨"pose", false⟩, ⟨"point", false⟩,
    ⟨"insertPose", false⟩, ⟨"insertPoint", false⟩]⟩

def planarSLAMGraphDecl : ClassDecl :=
  ⟨"planarSLAM::Graph",
   [⟨"print", false⟩, ⟨"error", false⟩, ⟨"orderingCOLAMD", false⟩,
    ⟨"linearize", false⟩, ⟨"addPrior", false⟩, ⟨"addPoseConstraint", false⟩,
    ⟨"addOdometry", false⟩, ⟨"addBearing", false⟩, ⟨"addRange", false⟩,
    ⟨"addBearingRange", false⟩, ⟨"optimize", false⟩]⟩

def planarSLAMOdometryDecl : ClassDecl :=
  ⟨"planarSLAM::Odometry", [⟨"print", false⟩, ⟨"linearize", false⟩]⟩

def simulated2DValuesDecl : ClassDecl :=
  ⟨"simulated2D::Values",
   [⟨"insertPose", false⟩, ⟨"insertPoint", false⟩, ⟨"nrPoses", false⟩,
    ⟨"nrPoints", false⟩, ⟨"pose", false⟩, ⟨"point", false⟩]⟩

def simulated2DGraphDecl : ClassDecl :=
  ⟨"simulated2D::Graph", []⟩

def simulated2DOrientedValuesDecl : ClassDecl :=
  ⟨"simulated2DOriented::Values",
   [⟨"insertPose", false⟩, ⟨"insertPoint", false⟩, ⟨"nrPoses", false⟩,
    ⟨"nrPoints", false⟩, ⟨"pose", false⟩, ⟨"point", false⟩]⟩

def simulated2DOrientedGraphDecl : ClassDecl :=
  ⟨"simulated2DOriented::Graph", []⟩

/-- All class declarations of `src/gtsam.h`, in file order. -/
def gtsamInterfaceClasses : List ClassDecl :=
  [point2Decl, point3Decl, rot2Decl, rot3Decl, pose2Decl, pose3Decl,
   sharedGaussianDecl, sharedDiagonalDecl, sharedNoiseModelDecl,
   vectorValuesDecl, gaussianConditionalDecl, gaussianBayesNetDecl,
   gaussianFactorDecl, jacobianFactorDecl, gaussianFactorGraphDecl,
   gaussianSequentialSolverDecl, kalmanFilterDecl, orderingDecl,
   planarSLAMValuesDecl, planarSLAMGraphDecl, planarSLAMOdometryDecl,
   simulated2DValuesDecl, simulated2DGraphDecl,
   simulated2DOrientedValuesDecl, simulated2DOrientedGraphDecl]

/-- Claim C8 (divergence witness): validating `src/gtsam.h` does raise
`DuplicateMethod`, on exactly one class — `Rot3`, which declares `RzRyRx`
twice (both static) and `ypr`, `yaw`, `pitch`, `roll` each both static and
non-static; every other class satisfies the unique-method-name
invariant. -/
theorem C8_duplicate_method_classes :
    duplicateMethodClasses gtsamInterfaceClasses = ["Rot3"] ∧
    hasDupNames (rot3Decl.methods.map MethodDecl.name) = true := by
  exact ⟨by decide, by decide⟩

end InterfaceCatalog
